import Mathlib

/-!
Verification development for the trend-monitor Telegram bot (src/main.py).

The embedding is shallow: each fetcher takes the outcome of its network
request as an explicit argument (an `Except` that is either the raised
exception's message or the pair of the HTTP status and the already
regex-extracted payload of the body), Python dictionaries become association
lists or records, `datetime.now()` becomes an abstract `Nat` timestamp, and
`random.choice` over a fixed template list becomes an explicit index argument
reduced modulo the list length.  Code that can raise past its own handlers
(the `strftime` call on a possibly-`None` timestamp in `show_trends`) returns
an `Except`.
-/

/-! ## Character and string helpers (Python semantics, ASCII range) -/

/-- Membership in Python's regex class `\s` for str patterns, which is also
the whitespace set `str.split()` with no argument splits on: the six ASCII
whitespace characters plus the Unicode whitespace characters (information
separators 28-31, next line 133, no-break space 160, ogham space 5760, the
en-quad..hair-space block 8192-8202, line/paragraph separators 8232/8233,
narrow no-break space 8239, medium mathematical space 8287 and ideographic
space 12288). -/
def isPySpace (c : Char) : Bool :=
  c = ' ' || c = '\t' || c = '\n' || c = '\r' || c = '\x0b' || c = '\x0c'
  || (28 ≤ c.toNat && c.toNat ≤ 31) || c.toNat = 133 || c.toNat = 160
  || c.toNat = 5760 || (8192 ≤ c.toNat && c.toNat ≤ 8202) || c.toNat = 8232
  || c.toNat = 8233 || c.toNat = 8239 || c.toNat = 8287 || c.toNat = 12288

/-- Worker for `pySplitWS`: walk the characters, `cur` holding the current
word reversed. -/
def pyWordsAux : List Char → List Char → List String
  | [], cur => if cur.isEmpty then [] else [String.mk cur.reverse]
  | c :: rest, cur =>
    if isPySpace c then
      if cur.isEmpty then pyWordsAux rest []
      else String.mk cur.reverse :: pyWordsAux rest []
    else pyWordsAux rest (c :: cur)

/-- Python `str.split()` with no argument: split on whitespace runs and drop
the empty pieces. -/
def pySplitWS (s : String) : List String :=
  pyWordsAux s.toList []

/-- ASCII lowercase letter test (`a`-`z`), phrased over `Char.toNat`. -/
def isLowerAscii (c : Char) : Bool :=
  decide (97 ≤ c.toNat) && decide (c.toNat ≤ 122)

/-- ASCII uppercase letter test, i.e. membership in the regex class `[A-Z]`
of `generate_ticker`. -/
def isUpperAscii (c : Char) : Bool :=
  decide (65 ≤ c.toNat) && decide (c.toNat ≤ 90)

/-- Python `str.upper()` on one character.  The result is a character list
because the Unicode full uppercase mapping can expand one character to
several (SpecialCasing.txt): the model maps the ASCII range exactly,
includes the expanding mapping `ß -> SS` that the development's statements
use, and leaves every other character unchanged.  Leaving a character
unchanged is exact for every character without an uppercase mapping (such
as the lowercase kra `ĸ`) and a simplification for the remaining non-ASCII
cased letters; no theorem below depends on those, since every universally
quantified statement about `generate_ticker` restricts its input to ASCII
and the concrete counterexample inputs use only exactly-modelled
characters. -/
def pyUpperChar (c : Char) : List Char :=
  if 97 ≤ c.toNat ∧ c.toNat ≤ 122 then [Char.ofNat (c.toNat - 32)]
  else if c = 'ß' then ['S', 'S']
  else [c]

/-- Python `str.upper()` on a string. -/
def pyUpperString (s : String) : String :=
  String.mk (s.toList.flatMap pyUpperChar)

/-- Models `datetime.strftime`: some fixed rendering of the abstract
timestamp; the claims depend only on the call being made on an actual
value, never on the rendered text. -/
def strftimeHMS (t : Nat) : String := toString t

/-! ## Data model: the cache, Reddit posts and CoinGecko items -/

/-- One record built by `fetch_reddit_trending` from a Reddit JSON post. -/
structure RedditPost where
  title : String
  score : Int
  subreddit : String
  url : String
deriving DecidableEq

/-- One record built by `fetch_coingecko_trending` from a CoinGecko JSON
item (the float `price_btc` is modelled as a rational). -/
structure CoinItem where
  name : String
  symbol : String
  market_cap_rank : Option Nat
  price_btc : Rat
deriving DecidableEq

/-- The global `trending_cache` dictionary, whose keys are fixed in the
source; record view.  `last_update` starts as `None`. -/
structure TrendingCache where
  google_trends : List String
  reddit_trending : List RedditPost
  coingecko_trending : List CoinItem
  youtube_trending : List String
  twitter_trends : List String
  crypto_news : List String
  last_update : Option Nat
deriving DecidableEq

/-- The initial value of `trending_cache` (lines 18-26 of src/main.py). -/
def initial_cache : TrendingCache :=
  ⟨[], [], [], [], [], [], none⟩

/-- Outcome of one HTTP GET whose body has been run through the fetcher's
regex: either the raised exception's message, or the status code together
with the extracted matches. -/
abbrev HttpOutcome (α : Type) := Except String (Nat × α)

/-! ## Fetchers -/

/-- Embeds `fetch_youtube_trending`: on a 200 response keep the extracted
titles longer than 10 characters that do not start with `YouTube`, first 15;
on any other status or a raised exception return the empty list. -/
def fetch_youtube_trending (env : HttpOutcome (List String)) : List String :=
  match env with
  | .error _ => []
  | .ok (status, titles) =>
    if status = 200 then
      (titles.filter (fun t => 10 < t.length && !(t.startsWith "YouTube"))).take 15
    else []

/-- Embeds `fetch_twitter_alternative`: try the Nitter instances in order
(`env` lists each instance's outcome); the first 200 response with a
non-empty trend list wins (first 10 trends), every failure moves on to the
next instance, and exhaustion returns the empty list. -/
def fetch_twitter_alternative (env : List (HttpOutcome (List String))) : List String :=
  match env with
  | [] => []
  | e :: rest =>
    match e with
    | .error _ => fetch_twitter_alternative rest
    | .ok (status, trends) =>
      if status = 200 && !trends.isEmpty then trends.take 10
      else fetch_twitter_alternative rest

/-- Embeds `fetch_crypto_news`: on a 200 response whose CDATA title list has
more than one element, return elements 1..10 (the first is the feed title);
otherwise the empty list. -/
def fetch_crypto_news (env : HttpOutcome (List String)) : List String :=
  match env with
  | .error _ => []
  | .ok (status, titles) =>
    if status = 200 then
      if 1 < titles.length then (titles.drop 1).take 10 else []
    else []

/-- The hardcoded fallback list of `fetch_google_trends`. -/
def fallback_trends : List String :=
  ["Bitcoin", "Ethereum", "Solana", "AI Technology",
   "Cryptocurrency News", "Memecoin", "DeFi",
   "NFT Market", "Blockchain", "Web3"]

/-- Embeds `fetch_google_trends`: a 200 RSS response with more than one
CDATA title yields titles 1..10; every other outcome (exception, other
status, at most one title) falls through to the hardcoded fallback list. -/
def fetch_google_trends (env : HttpOutcome (List String)) : List String :=
  match env with
  | .error _ => fallback_trends.take 10
  | .ok (status, ms) =>
    if status = 200 && 1 < ms.length then (ms.drop 1).take 10
    else fallback_trends.take 10

/-- The fixed subreddit list of `fetch_reddit_trending`. -/
def subreddit_list : List String :=
  ["cryptocurrency", "solana", "CryptoMoonShots"]

/-- Insert one post into a list sorted by descending score, after every
already-present post of equal score (used to model Python's stable
`list.sort(key=score, reverse=True)`). -/
def insertByScore (p : RedditPost) : List RedditPost → List RedditPost
  | [] => [p]
  | q :: rest => if q.score < p.score then p :: q :: rest else q :: insertByScore p rest

/-- Sort posts by descending score, stably: the posts are inserted in their
original order and each lands after its equals, as Python's stable sort
leaves them. -/
def sortByScoreDesc (l : List RedditPost) : List RedditPost :=
  l.foldl (fun acc p => insertByScore p acc) []

/-- Embeds `fetch_reddit_trending`: for each subreddit in order, a 200
response contributes its posts (title, score, permalink extracted from the
JSON; the stored url prepends the reddit host), any failure contributes
nothing; the collected posts are sorted by descending score and the first
10 returned. -/
def fetch_reddit_trending
    (env : String → HttpOutcome (List (String × Int × String))) : List RedditPost :=
  let all_trends := subreddit_list.foldl (fun acc sub =>
    match env sub with
    | .error _ => acc
    | .ok (status, posts) =>
      if status = 200 then
        acc ++ posts.map (fun tp => ⟨tp.1, tp.2.1, sub, "https://reddit.com" ++ tp.2.2⟩)
      else acc) []
  (sortByScoreDesc all_trends).take 10

/-- Embeds `fetch_coingecko_trending`: on a 200 response keep the first 10
items (already projected, defaults applied, to the four stored fields);
otherwise the empty list. -/
def fetch_coingecko_trending (env : HttpOutcome (List CoinItem)) : List CoinItem :=
  match env with
  | .error _ => []
  | .ok (status, coins) =>
    if status = 200 then coins.take 10 else []

/-! ## The aggregator `update_trending_data` -/

/-- The network environment of one full aggregator run: one outcome per
source (`reddit` maps each subreddit to its outcome). -/
structure FetchEnv where
  google : HttpOutcome (List String)
  reddit : String → HttpOutcome (List (String × Int × String))
  coingecko : HttpOutcome (List CoinItem)
  youtube : HttpOutcome (List String)
  twitter : List (HttpOutcome (List String))
  news : HttpOutcome (List String)

/-- The six results of `asyncio.gather(..., return_exceptions=True)`: each is
either the fetcher's returned list or, had the fetcher itself raised, the
exception. -/
structure GatherResults where
  google : Except String (List String)
  reddit : Except String (List RedditPost)
  coingecko : Except String (List CoinItem)
  youtube : Except String (List String)
  twitter : Except String (List String)
  news : Except String (List String)

/-- Models `results[i] if not isinstance(results[i], Exception) else []`. -/
def exceptionToNil {α : Type} (r : Except String (List α)) : List α :=
  match r with
  | .ok l => l
  | .error _ => []

/-- The seven cache assignments of `update_trending_data` (lines 232-238),
taking the gather results. -/
def update_cache_from_results (r : GatherResults) (now : Nat) (c : TrendingCache) :
    TrendingCache :=
  { c with
    google_trends := exceptionToNil r.google
    reddit_trending := exceptionToNil r.reddit
    coingecko_trending := exceptionToNil r.coingecko
    youtube_trending := exceptionToNil r.youtube
    twitter_trends := exceptionToNil r.twitter
    crypto_news := exceptionToNil r.news
    last_update := some now }

/-- Embeds `update_trending_data`: gather the six fetchers (each catches its
own exceptions and returns a list, so each gather slot is `ok`) and store
the results. -/
def update_trending_data (env : FetchEnv) (now : Nat) (c : TrendingCache) : TrendingCache :=
  update_cache_from_results
    ⟨.ok (fetch_google_trends env.google),
     .ok (fetch_reddit_trending env.reddit),
     .ok (fetch_coingecko_trending env.coingecko),
     .ok (fetch_youtube_trending env.youtube),
     .ok (fetch_twitter_alternative env.twitter),
     .ok (fetch_crypto_news env.news)⟩ now c

/-! ## Coin idea generator -/

/-- The cleaning step of `generate_coin_name`: `re.sub` deleting every
character that is neither alphanumeric nor whitespace. -/
def clean_trend (trend : String) : String :=
  String.mk (trend.toList.filter (fun c => c.isAlphanum || isPySpace c))

/-- The word list `clean_trend(trend).split()` of `generate_coin_name`. -/
def trendWords (trend : String) : List String :=
  pySplitWS (clean_trend trend)

/-- The six naming patterns of `generate_coin_name`, in source order.  The
third pattern joins the first two words when there are at least two and
otherwise falls back to the original trend string; the other five fall back
to a `Trend` placeholder (`MoonTrend` for the last). -/
def name_patterns (trend : String) : List String :=
  let words := trendWords trend
  [ (match words.head? with | some w => w ++ "Coin" | none => "TrendCoin"),
    (match words.head? with | some w => w ++ "Token" | none => "TrendToken"),
    (if 2 ≤ words.length then String.join (words.take 2) else trend),
    (match words.head? with | some w => w ++ "Inu" | none => "TrendInu"),
    (match words.head? with | some w => "Baby" ++ w | none => "BabyTrend"),
    (match words.head? with | some w => w ++ "Moon" | none => "MoonTrend") ]

/-- Embeds `generate_coin_name`; `choice` is the index `random.choice`
picks, reduced modulo the six patterns. -/
def generate_coin_name (trend : String) (choice : Nat) : String :=
  (name_patterns trend).getD (choice % 6) "TrendCoin"

/-- The character list of `generate_ticker`: keep only `[A-Z]` of the
uppercased name; with at least 3 such letters take the first 4 of them,
otherwise take the first 4 characters of the name, uppercase them and drop
the spaces. -/
def tickerChars (name : List Char) : List Char :=
  let clean := (name.flatMap pyUpperChar).filter isUpperAscii
  if 3 ≤ clean.length then clean.take 4
  else ((name.take 4).flatMap pyUpperChar).filter (fun c => c ≠ ' ')

/-- Embeds `generate_ticker`. -/
def generate_ticker (name : String) : String :=
  String.mk (tickerChars name.toList)

/-- The five description templates of `generate_coin_concept`, in source
order. -/
def coin_descriptions (trend : String) : List String :=
  [ "The official memecoin of " ++ trend ++ "! 🚀",
    "Riding the " ++ trend ++ " wave to the moon! 🌙",
    trend ++ " holders unite! Community-driven token.",
    "Inspired by " ++ trend ++ ". Fair launch, no presale!",
    "The " ++ trend ++ " revolution starts here! 💎🙌" ]

/-- The record `generate_coin_concept` builds. -/
structure CoinConcept where
  trend : String
  source : String
  name : String
  ticker : String
  description : String
  generated_at : String
deriving DecidableEq

/-- Embeds `generate_coin_concept`; the two `random.choice` calls become the
two index arguments, `nowStr` the formatted `datetime.now()`. -/
def generate_coin_concept (trend source : String) (nameChoice descChoice : Nat)
    (nowStr : String) : CoinConcept :=
  let name := generate_coin_name trend nameChoice
  { trend := trend, source := source, name := name,
    ticker := generate_ticker name,
    description := (coin_descriptions trend).getD (descChoice % 5) "",
    generated_at := nowStr }

/-! ## User preferences and `toggle_auto` -/

/-- One user's preference dictionary: `auto_notify` may be absent. -/
structure UserPref where
  auto_notify : Option Bool
deriving DecidableEq

/-- The global `user_preferences` dictionary, as an association list from
Telegram user ids. -/
abbrev Prefs := List (Nat × UserPref)

/-- Dictionary lookup on `user_preferences`. -/
def prefsGet (uid : Nat) : Prefs → Option UserPref
  | [] => none
  | (k, v) :: rest => if k = uid then some v else prefsGet uid rest

/-- Dictionary assignment on `user_preferences` (replace, or append when the
key is new). -/
def prefsSet (uid : Nat) (v : UserPref) : Prefs → Prefs
  | [] => [(uid, v)]
  | (k, w) :: rest => if k = uid then (uid, v) :: rest else (k, w) :: prefsSet uid v rest

/-- The usage reply of `toggle_auto`. -/
def usage_message : String := "Usage: /auto `on` or /auto `off`"

/-- The reply of `toggle_auto` when notifications get enabled. -/
def enabled_message : String :=
  "🔔 Auto-notifications *ENABLED*!\nI\x27ll notify you when new trending topics appear."

/-- The reply of `toggle_auto` when notifications get disabled. -/
def disabled_message : String :=
  "🔕 Auto-notifications *DISABLED*."

/-- Embeds `toggle_auto`: with anything other than exactly one argument that
lowercases to `on` or `off`, reply with the usage text and leave the
preferences alone; otherwise ensure the caller's entry exists and set its
`auto_notify` field.  Returns the replies and the new preferences. -/
def toggle_auto (uid : Nat) (args : List String) (prefs : Prefs) : List String × Prefs :=
  match args with
  | [arg] =>
    if arg.toLower = "on" || arg.toLower = "off" then
      let status := arg.toLower = "on"
      let prefs1 := match prefsGet uid prefs with
        | none => prefsSet uid ⟨none⟩ prefs
        | some _ => prefs
      let entry := (prefsGet uid prefs1).getD ⟨none⟩
      let prefs2 := prefsSet uid { entry with auto_notify := some status } prefs1
      (if status then [enabled_message] else [disabled_message], prefs2)
    else ([usage_message], prefs)
  | _ => ([usage_message], prefs)

/-- Decides whether `toggle_auto`'s argument check passes: exactly one
argument whose lowercasing is `on` or `off`. -/
def validAutoArgs : List String → Bool
  | [arg] => arg.toLower = "on" || arg.toLower = "off"
  | _ => false

/-- The boolean `status` a valid `toggle_auto` call stores. -/
def autoStatus : List String → Bool
  | [arg] => arg.toLower = "on"
  | _ => false

/-! ## Command handlers: replies and cache effects

Each handler takes the fetch environment and timestamp used if it triggers
the aggregator, plus the current cache, and returns its replies in order
together with the cache afterwards. -/

/-- Enumerated lines `f"{i}. {t}\n"` starting at 1, as the handlers build
them. -/
def enumLines (l : List String) : String :=
  String.join (l.enum.map (fun p => toString (p.1 + 1) ++ ". " ++ p.2 ++ "\n"))

/-- The `show_trends` reply when the Google list is empty after the
refetch. -/
def no_trends_msg : String := "❌ No trends available. Try /refresh"

/-- The rendered `show_trends` message. -/
def render_trends (trends : List String) (lu : Nat) : String :=
  "📊 *Google Trending Searches*\n" ++ "🕐 Updated: " ++ strftimeHMS lu ++ "\n\n"
  ++ enumLines (trends.take 10)
  ++ "\n💡 Use /generate to create coin ideas!"

/-- Embeds `show_trends`.  The reply list is an `Except` because the code
calls `last_update.strftime` without a `None` check: when the rendering is
reached with `last_update = None` the Python handler raises, modelled as
`.error`.  The cache component is the cache after the handler (the global
mutation survives the raise). -/
def show_trends (env : FetchEnv) (now : Nat) (c : TrendingCache) :
    Except String (List String) × TrendingCache :=
  let pre := if c.google_trends.isEmpty then ["⏳ Fetching trends for the first time..."] else []
  let c1 := if c.google_trends.isEmpty then update_trending_data env now c else c
  let trends := c1.google_trends
  if trends.isEmpty then (.ok (pre ++ [no_trends_msg]), c1)
  else
    match c1.last_update with
    | none => (.error "AttributeError: NoneType has no attribute strftime", c1)
    | some lu => (.ok (pre ++ [render_trends trends lu]), c1)

/-- The rendered `show_reddit` message. -/
def render_reddit (posts : List RedditPost) : String :=
  "🔥 *Trending on Crypto Reddit*\n\n"
  ++ String.join ((posts.take 5).enum.map (fun p =>
       toString (p.1 + 1) ++ ". *" ++ p.2.title.take 60 ++ "...*\n"
       ++ "   ⬆️ " ++ toString p.2.score ++ " | r/" ++ p.2.subreddit ++ "\n\n"))

/-- The `show_reddit` unavailability reply. -/
def no_reddit_msg : String := "❌ No Reddit trends available."

/-- Embeds `show_reddit`. -/
def show_reddit (env : FetchEnv) (now : Nat) (c : TrendingCache) :
    List String × TrendingCache :=
  let pre := if c.reddit_trending.isEmpty then ["⏳ Fetching Reddit trends..."] else []
  let c1 := if c.reddit_trending.isEmpty then update_trending_data env now c else c
  let posts := c1.reddit_trending
  if posts.isEmpty then (pre ++ [no_reddit_msg], c1)
  else (pre ++ [render_reddit posts], c1)

/-- Renders a `market_cap_rank` the way the Python f-string does (`N/A` when
the JSON had no rank). -/
def renderRank : Option Nat → String
  | some n => toString n
  | none => "N/A"

/-- The rendered `show_coins` message. -/
def render_coins (coins : List CoinItem) : String :=
  "💎 *Trending Coins (CoinGecko)*\n\n"
  ++ String.join ((coins.take 10).enum.map (fun p =>
       toString (p.1 + 1) ++ ". *" ++ p.2.name ++ "* ($" ++ pyUpperString p.2.symbol ++ ")\n"
       ++ "   📊 Rank: #" ++ renderRank p.2.market_cap_rank ++ "\n\n"))

/-- The `show_coins` unavailability reply. -/
def no_coins_msg : String := "❌ No trending coins available."

/-- Embeds `show_coins`. -/
def show_coins (env : FetchEnv) (now : Nat) (c : TrendingCache) :
    List String × TrendingCache :=
  let pre := if c.coingecko_trending.isEmpty then ["⏳ Fetching trending coins..."] else []
  let c1 := if c.coingecko_trending.isEmpty then update_trending_data env now c else c
  let coins := c1.coingecko_trending
  if coins.isEmpty then (pre ++ [no_coins_msg], c1)
  else (pre ++ [render_coins coins], c1)

/-- The rendered `show_twitter` message. -/
def render_twitter (trends : List String) : String :=
  "🐦 *Trending on Twitter/X*\n\n" ++ enumLines (trends.take 10)

/-- The `show_twitter` unavailability reply. -/
def no_twitter_msg : String := "❌ Twitter trends unavailable. Try /refresh in a moment."

/-- Embeds `show_twitter`. -/
def show_twitter (env : FetchEnv) (now : Nat) (c : TrendingCache) :
    List String × TrendingCache :=
  let pre := if c.twitter_trends.isEmpty then ["⏳ Fetching Twitter trends..."] else []
  let c1 := if c.twitter_trends.isEmpty then update_trending_data env now c else c
  let trends := c1.twitter_trends
  if trends.isEmpty then (pre ++ [no_twitter_msg], c1)
  else (pre ++ [render_twitter trends], c1)

/-- The rendered `show_youtube` message. -/
def render_youtube (trends : List String) : String :=
  "📺 *Trending on YouTube*\n\n" ++ enumLines (trends.take 10)

/-- The `show_youtube` unavailability reply. -/
def no_youtube_msg : String := "❌ YouTube trends unavailable."

/-- Embeds `show_youtube`. -/
def show_youtube (env : FetchEnv) (now : Nat) (c : TrendingCache) :
    List String × TrendingCache :=
  let pre := if c.youtube_trending.isEmpty then ["⏳ Fetching YouTube trends..."] else []
  let c1 := if c.youtube_trending.isEmpty then update_trending_data env now c else c
  let trends := c1.youtube_trending
  if trends.isEmpty then (pre ++ [no_youtube_msg], c1)
  else (pre ++ [render_youtube trends], c1)

/-- The rendered `show_news` message. -/
def render_news (news : List String) : String :=
  "📰 *Latest Crypto News*\n\n"
  ++ String.join ((news.take 8).enum.map (fun p =>
       toString (p.1 + 1) ++ ". " ++ p.2 ++ "\n\n"))

/-- The `show_news` unavailability reply. -/
def no_news_msg : String := "❌ News unavailable."

/-- Embeds `show_news`. -/
def show_news (env : FetchEnv) (now : Nat) (c : TrendingCache) :
    List String × TrendingCache :=
  let pre := if c.crypto_news.isEmpty then ["⏳ Fetching crypto news..."] else []
  let c1 := if c.crypto_news.isEmpty then update_trending_data env now c else c
  let news := c1.crypto_news
  if news.isEmpty then (pre ++ [no_news_msg], c1)
  else (pre ++ [render_news news], c1)

/-- The emptiness test `not any([...])` of `show_all_trends` over all six
source lists (true when every list is empty). -/
def allSixEmptyB (c : TrendingCache) : Bool :=
  c.google_trends.isEmpty && c.reddit_trending.isEmpty && c.coingecko_trending.isEmpty
  && c.youtube_trending.isEmpty && c.twitter_trends.isEmpty && c.crypto_news.isEmpty

/-- The rendered `show_all_trends` summary: one optional section per
non-empty source, then a fixed footer; an all-empty cache yields just the
header and footer, never an unavailability reply. -/
def render_all_trends (c : TrendingCache) : String :=
  "🌐 *ALL TRENDING DATA*\n\n"
  ++ (match c.twitter_trends with
      | [] => ""
      | l => "🐦 *Twitter:* " ++ String.intercalate ", " (l.take 3) ++ "\n\n")
  ++ (match c.youtube_trending with
      | [] => ""
      | t :: _ => "📺 *YouTube:* " ++ t.take 50 ++ "...\n\n")
  ++ (match c.google_trends with
      | [] => ""
      | l => "📊 *Google:* " ++ String.intercalate ", " (l.take 3) ++ "\n\n")
  ++ (match c.reddit_trending with
      | [] => ""
      | p :: _ => "🔥 *Reddit:* " ++ p.title.take 50 ++ "... (" ++ toString p.score ++ "↑)\n\n")
  ++ (match c.coingecko_trending with
      | [] => ""
      | l => "💎 *Coins:* " ++ String.intercalate ", " ((l.take 3).map (fun ci => ci.name)) ++ "\n\n")
  ++ (match c.crypto_news with
      | [] => ""
      | n :: _ => "📰 *News:* " ++ n.take 60 ++ "...\n\n")
  ++ "Use specific commands for more details!"

/-- Embeds `show_all_trends`: refetch only when every source list is empty,
then always send the summary. -/
def show_all_trends (env : FetchEnv) (now : Nat) (c : TrendingCache) :
    List String × TrendingCache :=
  let pre := if allSixEmptyB c then ["⏳ Fetching ALL trends..."] else []
  let c1 := if allSixEmptyB c then update_trending_data env now c else c
  (pre ++ [render_all_trends c1], c1)

/-- The emptiness test of `generate_ideas` over the four source lists it
draws trends from. -/
def genFourEmptyB (c : TrendingCache) : Bool :=
  c.google_trends.isEmpty && c.reddit_trending.isEmpty
  && c.youtube_trending.isEmpty && c.twitter_trends.isEmpty

/-- The (trend, source) pairs `generate_ideas` feeds to
`generate_coin_concept`, in source order: 2 Twitter, 2 YouTube, 2 Google,
1 Reddit (first three words of the top post's title). -/
def ideaSeeds (c : TrendingCache) : List (String × String) :=
  (c.twitter_trends.take 2).map (fun t => (t, "🐦 Twitter"))
  ++ (c.youtube_trending.take 2).map (fun t => (t, "📺 YouTube"))
  ++ (c.google_trends.take 2).map (fun t => (t, "📊 Google"))
  ++ (c.reddit_trending.take 1).map (fun p =>
       (String.intercalate " " ((pySplitWS p.title).take 3), "🔥 Reddit"))

/-- The concept list `generate_ideas` builds; `rngN i` and `rngD i` are the
`random.choice` indices of the i-th concept. -/
def ideaConcepts (rngN rngD : Nat → Nat) (nowStr : String) (c : TrendingCache) :
    List CoinConcept :=
  (ideaSeeds c).enum.map (fun p => generate_coin_concept p.2.1 p.2.2 (rngN p.1) (rngD p.1) nowStr)

/-- The fixed closing block of the `generate_ideas` message. -/
def next_steps_block : String :=
  "⚠️ *Next Steps:*\n1. Review the concept\n2. Create logo (Canva/AI)\n3. Deploy on pump.fun\n4. Market on Twitter/Telegram"

/-- One rendered concept inside the `generate_ideas` message. -/
def render_concept (i : Nat) (cc : CoinConcept) : String :=
  "*" ++ toString i ++ ". " ++ cc.name ++ "* ($" ++ cc.ticker ++ ")\n"
  ++ "📝 " ++ cc.description ++ "\n"
  ++ "📊 Based on: " ++ cc.trend.take 40 ++ "...\n"
  ++ "🔍 Source: " ++ cc.source ++ "\n\n"

/-- The rendered `generate_ideas` message (first 7 concepts). -/
def render_concepts (cs : List CoinConcept) : String :=
  "🚀 *Generated Coin Concepts*\n\n"
  ++ String.join ((cs.take 7).enum.map (fun p => render_concept (p.1 + 1) p.2))
  ++ next_steps_block

/-- The `generate_ideas` unavailability reply. -/
def no_ideas_msg : String := "❌ No trends available to generate ideas."

/-- Embeds `generate_ideas`. -/
def generate_ideas (env : FetchEnv) (now : Nat) (nowStr : String) (rngN rngD : Nat → Nat)
    (c : TrendingCache) : List String × TrendingCache :=
  let pre := if genFourEmptyB c then ["⏳ Fetching trends first..."] else []
  let c1 := if genFourEmptyB c then update_trending_data env now c else c
  let gen := ["🎨 Generating coin ideas from ALL sources..."]
  let concepts := ideaConcepts rngN rngD nowStr c1
  if concepts.isEmpty then (pre ++ gen ++ [no_ideas_msg], c1)
  else (pre ++ gen ++ [render_concepts concepts], c1)

/-! ## Whole-program state and the background monitor -/

/-- The program's mutable state: the trending cache and the user
preferences. -/
structure World where
  cache : TrendingCache
  prefs : Prefs
deriving DecidableEq

/-- The state at startup. -/
def initial_world : World := ⟨initial_cache, []⟩

/-- Embeds the world effect of `update_trending_data` (and so of
`refresh_data` and of the monitor's initial update): only the cache
changes. -/
def update_trending_data_world (env : FetchEnv) (now : Nat) (w : World) : World :=
  { w with cache := update_trending_data env now w.cache }

/-- The environment of one iteration of `background_trend_monitor`'s loop:
the fetch outcomes and timestamp of the aggregator run, and `failure`,
which when set models an exception raised inside the `try` body before any
cache write (the raise points are the sleep and the gather machinery; the
body's own code cannot raise in the embedding). -/
structure LoopEnv where
  fetch : FetchEnv
  now : Nat
  failure : Option String

/-- The set difference `set(new) - set(old)`, listed without duplicates. -/
def setDiff (new old : List String) : List String :=
  (new.filter (fun t => !old.contains t)).dedup

/-- The notification text built for each opted-in user from the fresh
trends (first 5). -/
def notify_message (fresh : List String) : String :=
  "🔥 *New Trending Topics Detected!*\n\n"
  ++ String.join ((fresh.take 5).map (fun t => "• " ++ t ++ "\n"))
  ++ "\nUse /generate to create coin ideas!"

/-- Result of one pass through the monitor's `while True` body: the state
afterwards, the notifications attempted (user id with the listed trends),
and the sleeps performed (`[1800]` at the start of a successful body,
`[300]` in the `except` arm). -/
structure IterResult where
  world : World
  notifs : List (Nat × List String)
  sleeps : List Nat
deriving DecidableEq

/-- Embeds one iteration of `background_trend_monitor`'s loop.  A raised
exception is caught by the bare `except`, which sleeps 300 seconds and lets
the loop retry; a normal pass sleeps 1800 seconds, re-runs the aggregator,
diffs the Google trend set and notifies every user whose `auto_notify`
preference is `True` when the difference is non-empty. -/
def background_monitor_iter (env : LoopEnv) (w : World) : IterResult :=
  match env.failure with
  | some _ => ⟨w, [], [300]⟩
  | none =>
    let old_trends := w.cache.google_trends
    let c1 := update_trending_data env.fetch env.now w.cache
    let fresh := setDiff c1.google_trends old_trends
    let notifs :=
      if fresh.isEmpty then []
      else w.prefs.filterMap (fun kv =>
        if kv.2.auto_notify.getD false then some (kv.1, fresh.take 5) else none)
    ⟨⟨c1, w.prefs⟩, notifs, [1800]⟩

/-- The state after n iterations of the monitor loop (`envs i` is the i-th
iteration's environment): a total function of n, since every exception in
the body is caught and the loop has no exit. -/
def background_monitor_run (envs : Nat → LoopEnv) (w : World) : Nat → World
  | 0 => w
  | n + 1 => (background_monitor_iter (envs n) (background_monitor_run envs w n)).world

/-- The fresh-trend difference an iteration computes (named for the
statements about notifications). -/
def monitorFresh (env : LoopEnv) (w : World) : List String :=
  setDiff (update_trending_data env.fetch env.now w.cache).google_trends
    w.cache.google_trends

/-! ## Reachable program states

Every operation of the program either leaves the cache alone, replaces it
with an aggregator result, or (for `toggle_auto`) touches only the
preferences; the constructors below list the cache/preference effects of
every handler and of the background loop. -/

/-- The states the program can reach from startup through its handlers and
the background loop. -/
inductive Reachable : World → Prop where
  | init : Reachable initial_world
  | refresh (env : FetchEnv) (now : Nat) {w : World} :
      Reachable w → Reachable (update_trending_data_world env now w)
  | trendsCmd (env : FetchEnv) (now : Nat) {w : World} :
      Reachable w → Reachable ⟨(show_trends env now w.cache).2, w.prefs⟩
  | redditCmd (env : FetchEnv) (now : Nat) {w : World} :
      Reachable w → Reachable ⟨(show_reddit env now w.cache).2, w.prefs⟩
  | coinsCmd (env : FetchEnv) (now : Nat) {w : World} :
      Reachable w → Reachable ⟨(show_coins env now w.cache).2, w.prefs⟩
  | twitterCmd (env : FetchEnv) (now : Nat) {w : World} :
      Reachable w → Reachable ⟨(show_twitter env now w.cache).2, w.prefs⟩
  | youtubeCmd (env : FetchEnv) (now : Nat) {w : World} :
      Reachable w → Reachable ⟨(show_youtube env now w.cache).2, w.prefs⟩
  | newsCmd (env : FetchEnv) (now : Nat) {w : World} :
      Reachable w → Reachable ⟨(show_news env now w.cache).2, w.prefs⟩
  | allCmd (env : FetchEnv) (now : Nat) {w : World} :
      Reachable w → Reachable ⟨(show_all_trends env now w.cache).2, w.prefs⟩
  | generateCmd (env : FetchEnv) (now : Nat) (nowStr : String) (rngN rngD : Nat → Nat)
      {w : World} :
      Reachable w → Reachable ⟨(generate_ideas env now nowStr rngN rngD w.cache).2, w.prefs⟩
  | autoCmd (uid : Nat) (args : List String) {w : World} :
      Reachable w → Reachable ⟨w.cache, (toggle_auto uid args w.prefs).2⟩
  | monitor (env : LoopEnv) {w : World} :
      Reachable w → Reachable (background_monitor_iter env w).world

/-! ## Dictionary-level view of the cache (for the key-set invariant)

The record view above fixes the key set by construction; to check that the
source's dictionary assignments indeed never add or remove a key,
`trending_cache` is modelled once more as an association list on string
keys, with `update_trending_data`'s seven assignments applied in source
order through a replace-or-append `dictSet`. -/

/-- A value stored in the `trending_cache` dictionary. -/
inductive CVal where
  | strs : List String → CVal
  | posts : List RedditPost → CVal
  | coins : List CoinItem → CVal
  | time : Option Nat → CVal
deriving DecidableEq

/-- The dictionary view of `trending_cache`. -/
abbrev CacheDict := List (String × CVal)

/-- Dictionary assignment: replace the binding when the key exists, append
it otherwise (Python `d[k] = v`). -/
def dictSet (k : String) (v : CVal) : CacheDict → CacheDict
  | [] => [(k, v)]
  | (k2, v2) :: rest => if k2 = k then (k, v) :: rest else (k2, v2) :: dictSet k v rest

/-- Dictionary lookup (Python `d[k]`). -/
def dictGet (k : String) : CacheDict → Option CVal
  | [] => none
  | (k2, v2) :: rest => if k2 = k then some v2 else dictGet k rest

/-- The initial `trending_cache` dictionary in source order. -/
def initial_cache_dict : CacheDict :=
  [("google_trends", .strs []), ("reddit_trending", .posts []),
   ("coingecko_trending", .coins []), ("youtube_trending", .strs []),
   ("twitter_trends", .strs []), ("crypto_news", .strs []),
   ("last_update", .time none)]

/-- The seven keys of `trending_cache`, in source order. -/
def cache_keys : List String :=
  ["google_trends", "reddit_trending", "coingecko_trending", "youtube_trending",
   "twitter_trends", "crypto_news", "last_update"]

/-- The six source keys (all but `last_update`). -/
def source_keys : List String :=
  ["google_trends", "reddit_trending", "coingecko_trending", "youtube_trending",
   "twitter_trends", "crypto_news"]

/-- The seven assignments of `update_trending_data` on the dictionary view,
in source order. -/
def update_trending_data_dict (env : FetchEnv) (now : Nat) (d : CacheDict) : CacheDict :=
  dictSet "last_update" (.time (some now))
    (dictSet "crypto_news" (.strs (fetch_crypto_news env.news))
      (dictSet "twitter_trends" (.strs (fetch_twitter_alternative env.twitter))
        (dictSet "youtube_trending" (.strs (fetch_youtube_trending env.youtube))
          (dictSet "coingecko_trending" (.coins (fetch_coingecko_trending env.coingecko))
            (dictSet "reddit_trending" (.posts (fetch_reddit_trending env.reddit))
              (dictSet "google_trends" (.strs (fetch_google_trends env.google)) d))))))

/-- Whether a dictionary value is a list (of any of the three element
shapes) rather than the timestamp. -/
def CVal.isListVal : CVal → Bool
  | .strs _ => true
  | .posts _ => true
  | .coins _ => true
  | .time _ => false

/-- The dictionary states `trending_cache` can reach: the initial literal,
then any sequence of aggregator runs (the only writes the program performs
on the cache). -/
inductive ReachableDict : CacheDict → Prop where
  | init : ReachableDict initial_cache_dict
  | update (env : FetchEnv) (now : Nat) {d : CacheDict} :
      ReachableDict d → ReachableDict (update_trending_data_dict env now d)

/-! ## Helper lemmas -/

theorem getD_mem_of_lt {α : Type} (l : List α) (n : Nat) (d : α) (h : n < l.length) :
    l.getD n d ∈ l := by
  induction l generalizing n with
  | nil => simp at h
  | cons x xs ih =>
    cases n with
    | zero => simp [List.getD]
    | succ m =>
      simp only [List.getD_cons_succ]
      exact List.mem_cons_of_mem x (ih m (by simpa using h))

theorem toNat_ofNatAux (n : Nat) (h : n.isValidChar) : (Char.ofNatAux n h).toNat = n := rfl

theorem toNat_ofNat_valid (n : Nat) (h : n.isValidChar) : (Char.ofNat n).toNat = n := by
  simp only [Char.ofNat, h, dif_pos, toNat_ofNatAux]

theorem isUpperAscii_no_lower {c : Char} (h : isUpperAscii c = true) :
    isLowerAscii c = false := by
  simp only [isUpperAscii, Bool.and_eq_true, decide_eq_true_eq] at h
  simp only [isLowerAscii, Bool.and_eq_false_iff, decide_eq_false_iff_not]
  omega

theorem isUpperAscii_ne_space {c : Char} (h : isUpperAscii c = true) : c ≠ ' ' := by
  intro he
  subst he
  simp only [isUpperAscii] at h
  exact absurd h (by decide)

theorem isLowerAscii_of_mem_pyUpperChar {ch c : Char} (hm : ch ∈ pyUpperChar c) :
    isLowerAscii ch = false := by
  unfold pyUpperChar at hm
  split at hm
  · next h =>
    rw [List.mem_singleton.mp hm]
    have hv : Nat.isValidChar (c.toNat - 32) := Or.inl (by omega)
    have ht : (Char.ofNat (c.toNat - 32)).toNat = c.toNat - 32 := toNat_ofNat_valid _ hv
    simp only [isLowerAscii, ht, Bool.and_eq_false_iff, decide_eq_false_iff_not]
    omega
  · split at hm
    · rcases List.mem_cons.mp hm with he | hm2
      · rw [he]; decide
      · rw [List.mem_singleton.mp hm2]; decide
    · next h _ =>
      rw [List.mem_singleton.mp hm]
      simp only [isLowerAscii, Bool.and_eq_false_iff, decide_eq_false_iff_not]
      omega

theorem pyUpperChar_length_of_ascii {c : Char} (h : c.toNat < 128) :
    (pyUpperChar c).length = 1 := by
  unfold pyUpperChar
  split
  · rfl
  · split
    · next he =>
      rw [he] at h
      exact absurd h (by decide)
    · rfl

theorem flatMap_length_of_singleton (f : Char → List Char) (l : List Char)
    (h : ∀ c ∈ l, (f c).length = 1) : (l.flatMap f).length = l.length := by
  induction l with
  | nil => rfl
  | cons x xs ih =>
    rw [List.flatMap_cons, List.length_append, h x (List.mem_cons_self x xs),
      ih (fun c hc => h c (List.mem_cons_of_mem x hc)), List.length_cons]
    omega

theorem prefsGet_prefsSet_same (uid : Nat) (v : UserPref) (prefs : Prefs) :
    prefsGet uid (prefsSet uid v prefs) = some v := by
  induction prefs with
  | nil => simp [prefsSet, prefsGet]
  | cons kv rest ih =>
    by_cases h : kv.1 = uid
    · simp [prefsSet, prefsGet, h]
    · simp [prefsSet, prefsGet, h, ih]

theorem prefsGet_prefsSet_ne (uid v2 : Nat) (v : UserPref) (prefs : Prefs) (h : v2 ≠ uid) :
    prefsGet v2 (prefsSet uid v prefs) = prefsGet v2 prefs := by
  induction prefs with
  | nil => simp [prefsSet, prefsGet, Ne.symm h]
  | cons kv rest ih =>
    by_cases h1 : kv.1 = uid
    · simp [prefsSet, prefsGet, h1, Ne.symm h, h]
    · simp [prefsSet, prefsGet, h1, ih]

theorem prefsSet_prefsSet_same (uid : Nat) (v1 v2 : UserPref) (prefs : Prefs) :
    prefsSet uid v2 (prefsSet uid v1 prefs) = prefsSet uid v2 prefs := by
  induction prefs with
  | nil => simp [prefsSet]
  | cons kv rest ih =>
    by_cases h : kv.1 = uid
    · simp [prefsSet, h]
    · simp [prefsSet, h, ih]

theorem prefsGet_eq_of_mem_of_nodup {uid : Nat} {p : UserPref} {prefs : Prefs}
    (hd : (prefs.map Prod.fst).Nodup) (hm : (uid, p) ∈ prefs) :
    prefsGet uid prefs = some p := by
  induction prefs with
  | nil => simp at hm
  | cons kv rest ih =>
    simp only [List.map_cons, List.nodup_cons] at hd
    rcases List.mem_cons.mp hm with he | hm2
    · rw [← he]
      simp [prefsGet]
    · have hne : kv.1 ≠ uid := by
        intro he2
        exact hd.1 (he2 ▸ (List.mem_map.mpr ⟨(uid, p), hm2, rfl⟩))
      simp [prefsGet, hne, ih hd.2 hm2]

theorem dictGet_dictSet_same (k : String) (v : CVal) (d : CacheDict) :
    dictGet k (dictSet k v d) = some v := by
  induction d with
  | nil => simp [dictSet, dictGet]
  | cons kv rest ih =>
    by_cases h : kv.1 = k
    · simp [dictSet, dictGet, h]
    · simp [dictSet, dictGet, h, ih]

theorem dictGet_dictSet_ne (k k2 : String) (v : CVal) (d : CacheDict) (h : k2 ≠ k) :
    dictGet k2 (dictSet k v d) = dictGet k2 d := by
  induction d with
  | nil => simp [dictSet, dictGet, Ne.symm h]
  | cons kv rest ih =>
    by_cases h1 : kv.1 = k
    · simp [dictSet, dictGet, h1, Ne.symm h, h]
    · simp [dictSet, dictGet, h1, ih]

theorem dictSet_keys_of_mem (k : String) (v : CVal) (d : CacheDict)
    (h : k ∈ d.map Prod.fst) : (dictSet k v d).map Prod.fst = d.map Prod.fst := by
  induction d with
  | nil => simp at h
  | cons kv rest ih =>
    by_cases h1 : kv.1 = k
    · simp [dictSet, h1]
    · have h2 : k ∈ rest.map Prod.fst := by
        rcases List.mem_map.mp h with ⟨x, hx, he⟩
        rcases List.mem_cons.mp hx with he2 | hx2
        · exact absurd (he2 ▸ he) (by simpa [eq_comm] using h1)
        · exact List.mem_map.mpr ⟨x, hx2, he⟩
      simp [dictSet, h1, ih h2]

theorem take_ne_nil_of_ne_nil {α : Type} {l : List α} (h : l ≠ []) (n : Nat) (hn : 0 < n) :
    l.take n ≠ [] := by
  cases l with
  | nil => exact absurd rfl h
  | cons x xs =>
    cases n with
    | zero => simp at hn
    | succ m => simp [List.take]

theorem fetch_google_trends_ne_nil (env : HttpOutcome (List String)) :
    fetch_google_trends env ≠ [] := by
  unfold fetch_google_trends
  cases env with
  | error e =>
    dsimp only
    decide
  | ok p =>
    obtain ⟨status, ms⟩ := p
    dsimp only
    split
    · next h =>
      have h1 : 1 < ms.length := by
        rcases Bool.and_eq_true _ _ |>.mp h with ⟨_, h2⟩
        exact of_decide_eq_true h2
      have h2 : ms.drop 1 ≠ [] := by
        intro he
        have := congrArg List.length he
        simp at this
        omega
      exact take_ne_nil_of_ne_nil h2 10 (by omega)
    · decide

theorem update_google (env : FetchEnv) (now : Nat) (c : TrendingCache) :
    (update_trending_data env now c).google_trends = fetch_google_trends env.google := rfl

theorem update_last_update (env : FetchEnv) (now : Nat) (c : TrendingCache) :
    (update_trending_data env now c).last_update = some now := rfl

/-- The invariant behind claim C8: a non-empty Google list implies the
timestamp was set. -/
def cacheOk (c : TrendingCache) : Prop :=
  c.google_trends ≠ [] → c.last_update ≠ none

theorem cacheOk_update (env : FetchEnv) (now : Nat) (c : TrendingCache) :
    cacheOk (update_trending_data env now c) := by
  intro _
  rw [update_last_update]
  simp

theorem cacheOk_ite (env : FetchEnv) (now : Nat) (c : TrendingCache) (b : Bool)
    (h : cacheOk c) : cacheOk (if b then update_trending_data env now c else c) := by
  cases b with
  | false => simpa using h
  | true => simpa using cacheOk_update env now c

theorem show_trends_cache (env : FetchEnv) (now : Nat) (c : TrendingCache) :
    (show_trends env now c).2 =
      if c.google_trends.isEmpty then update_trending_data env now c else c := by
  unfold show_trends
  by_cases h1 : c.google_trends.isEmpty
  · by_cases h2 : (update_trending_data env now c).google_trends.isEmpty
    · simp [h1, h2]
    · simp [h1, h2, update_last_update]
  · cases h3 : c.last_update <;> simp [h1, h3]

theorem show_reddit_cache (env : FetchEnv) (now : Nat) (c : TrendingCache) :
    (show_reddit env now c).2 =
      if c.reddit_trending.isEmpty then update_trending_data env now c else c := by
  unfold show_reddit
  by_cases h1 : c.reddit_trending.isEmpty <;>
    by_cases h2 : (update_trending_data env now c).reddit_trending.isEmpty <;>
      simp [h1, h2]

theorem show_coins_cache (env : FetchEnv) (now : Nat) (c : TrendingCache) :
    (show_coins env now c).2 =
      if c.coingecko_trending.isEmpty then update_trending_data env now c else c := by
  unfold show_coins
  by_cases h1 : c.coingecko_trending.isEmpty <;>
    by_cases h2 : (update_trending_data env now c).coingecko_trending.isEmpty <;>
      simp [h1, h2]

theorem show_twitter_cache (env : FetchEnv) (now : Nat) (c : TrendingCache) :
    (show_twitter env now c).2 =
      if c.twitter_trends.isEmpty then update_trending_data env now c else c := by
  unfold show_twitter
  by_cases h1 : c.twitter_trends.isEmpty <;>
    by_cases h2 : (update_trending_data env now c).twitter_trends.isEmpty <;>
      simp [h1, h2]

theorem show_youtube_cache (env : FetchEnv) (now : Nat) (c : TrendingCache) :
    (show_youtube env now c).2 =
      if c.youtube_trending.isEmpty then update_trending_data env now c else c := by
  unfold show_youtube
  by_cases h1 : c.youtube_trending.isEmpty <;>
    by_cases h2 : (update_trending_data env now c).youtube_trending.isEmpty <;>
      simp [h1, h2]

theorem show_news_cache (env : FetchEnv) (now : Nat) (c : TrendingCache) :
    (show_news env now c).2 =
      if c.crypto_news.isEmpty then update_trending_data env now c else c := by
  unfold show_news
  by_cases h1 : c.crypto_news.isEmpty <;>
    by_cases h2 : (update_trending_data env now c).crypto_news.isEmpty <;>
      simp [h1, h2]

theorem show_all_trends_cache (env : FetchEnv) (now : Nat) (c : TrendingCache) :
    (show_all_trends env now c).2 =
      if allSixEmptyB c then update_trending_data env now c else c := by
  unfold show_all_trends
  by_cases h1 : allSixEmptyB c <;> simp [h1]

theorem generate_ideas_cache (env : FetchEnv) (now : Nat) (nowStr : String)
    (rngN rngD : Nat → Nat) (c : TrendingCache) :
    (generate_ideas env now nowStr rngN rngD c).2 =
      if genFourEmptyB c then update_trending_data env now c else c := by
  unfold generate_ideas
  by_cases h1 : genFourEmptyB c
  · by_cases h2 : (ideaConcepts rngN rngD nowStr (update_trending_data env now c)).isEmpty <;>
      simp [h1, h2]
  · by_cases h2 : (ideaConcepts rngN rngD nowStr c).isEmpty <;>
      simp [h1, h2]

theorem cacheOk_update_world (env : FetchEnv) (now : Nat) (w : World) :
    cacheOk (update_trending_data_world env now w).cache :=
  cacheOk_update env now w.cache

theorem reachable_cacheOk {w : World} (h : Reachable w) : cacheOk w.cache := by
  induction h with
  | init => intro h2; exact absurd rfl h2
  | refresh env now _ _ => exact cacheOk_update_world env now _
  | trendsCmd env now _ ih =>
    show cacheOk (show_trends env now _).2
    rw [show_trends_cache]
    exact cacheOk_ite env now _ _ ih
  | redditCmd env now _ ih =>
    show cacheOk (show_reddit env now _).2
    rw [show_reddit_cache]
    exact cacheOk_ite env now _ _ ih
  | coinsCmd env now _ ih =>
    show cacheOk (show_coins env now _).2
    rw [show_coins_cache]
    exact cacheOk_ite env now _ _ ih
  | twitterCmd env now _ ih =>
    show cacheOk (show_twitter env now _).2
    rw [show_twitter_cache]
    exact cacheOk_ite env now _ _ ih
  | youtubeCmd env now _ ih =>
    show cacheOk (show_youtube env now _).2
    rw [show_youtube_cache]
    exact cacheOk_ite env now _ _ ih
  | newsCmd env now _ ih =>
    show cacheOk (show_news env now _).2
    rw [show_news_cache]
    exact cacheOk_ite env now _ _ ih
  | allCmd env now _ ih =>
    show cacheOk (show_all_trends env now _).2
    rw [show_all_trends_cache]
    exact cacheOk_ite env now _ _ ih
  | generateCmd env now nowStr rngN rngD _ ih =>
    show cacheOk (generate_ideas env now nowStr rngN rngD _).2
    rw [generate_ideas_cache]
    exact cacheOk_ite env now _ _ ih
  | autoCmd uid args _ ih => exact ih
  | monitor env _ ih =>
    show cacheOk (background_monitor_iter env _).world.cache
    unfold background_monitor_iter
    cases hf : env.failure with
    | none => simpa using cacheOk_update env.fetch env.now _
    | some e => simpa using ih

theorem toggle_auto_spec (uid : Nat) (args : List String) (prefs : Prefs) :
    toggle_auto uid args prefs =
      (if validAutoArgs args
         then (if autoStatus args then [enabled_message] else [disabled_message])
         else [usage_message],
       if validAutoArgs args then prefsSet uid ⟨some (autoStatus args)⟩ prefs else prefs) := by
  match args with
  | [] => rfl
  | _ :: _ :: _ => rfl
  | [arg] =>
    unfold toggle_auto validAutoArgs autoStatus
    by_cases hon : arg.toLower = "on"
    · cases hg : prefsGet uid prefs with
      | none => simp [hon, hg, prefsSet_prefsSet_same]
      | some e => simp [hon, hg]
    · by_cases hoff : arg.toLower = "off"
      · cases hg : prefsGet uid prefs with
        | none => simp [hon, hoff, hg, prefsSet_prefsSet_same]
        | some e => simp [hon, hoff, hg]
      · simp [hon, hoff]

/-! ## The claims -/

/-- Claim C1: every fetcher maps any failure (raised exception, non-200
status, fruitless parse) to a returned list instead of a propagated
exception (each equation below gives the list value of a failure branch,
and the success branches are total list values as well), and the aggregator
`update_trending_data` stores, for each source independently, the fetcher's
own result — an exception slot in the gather results becoming the empty
list — so no source's failure can change what is stored for another
source. -/
theorem claim_c1 : ∀ (e : String) (s : Nat) (l : List String)
    (rest : List (HttpOutcome (List String))) (ci : List CoinItem)
    (r : GatherResults) (now : Nat) (c : TrendingCache),
    fetch_youtube_trending (.error e) = []
    ∧ fetch_youtube_trending (.ok (s, l)) =
        (if s = 200 then (l.filter (fun t => 10 < t.length && !(t.startsWith "YouTube"))).take 15
         else [])
    ∧ fetch_twitter_alternative [] = []
    ∧ fetch_twitter_alternative (.error e :: rest) = fetch_twitter_alternative rest
    ∧ fetch_twitter_alternative (.ok (s, l) :: rest) =
        (if s = 200 && !l.isEmpty then l.take 10 else fetch_twitter_alternative rest)
    ∧ fetch_crypto_news (.error e) = []
    ∧ fetch_crypto_news (.ok (s, l)) =
        (if s = 200 then if 1 < l.length then (l.drop 1).take 10 else [] else [])
    ∧ fetch_google_trends (.error e) = fallback_trends.take 10
    ∧ fetch_reddit_trending (fun _ => .error e) = []
    ∧ fetch_coingecko_trending (.error e) = []
    ∧ fetch_coingecko_trending (.ok (s, ci)) = (if s = 200 then ci.take 10 else [])
    ∧ exceptionToNil (Except.error e : Except String (List String)) = []
    ∧ (update_cache_from_results r now c).google_trends = exceptionToNil r.google
    ∧ (update_cache_from_results r now c).reddit_trending = exceptionToNil r.reddit
    ∧ (update_cache_from_results r now c).coingecko_trending = exceptionToNil r.coingecko
    ∧ (update_cache_from_results r now c).youtube_trending = exceptionToNil r.youtube
    ∧ (update_cache_from_results r now c).twitter_trends = exceptionToNil r.twitter
    ∧ (update_cache_from_results r now c).crypto_news = exceptionToNil r.news :=
  fun _ _ _ _ _ _ _ _ =>
    ⟨rfl, rfl, rfl, rfl, rfl, rfl, rfl, rfl, rfl, rfl, rfl, rfl, rfl, rfl, rfl, rfl, rfl, rfl⟩

/-- Claim C3: one aggregator run replaces all six source entries of the
cache with the freshly fetched results, sets `last_update` to the current
time, and leaves the rest of the program state — in particular
`user_preferences` — untouched. -/
theorem claim_c3 : ∀ (env : FetchEnv) (now : Nat) (w : World),
    (update_trending_data_world env now w).prefs = w.prefs
    ∧ (update_trending_data_world env now w).cache.google_trends =
        fetch_google_trends env.google
    ∧ (update_trending_data_world env now w).cache.reddit_trending =
        fetch_reddit_trending env.reddit
    ∧ (update_trending_data_world env now w).cache.coingecko_trending =
        fetch_coingecko_trending env.coingecko
    ∧ (update_trending_data_world env now w).cache.youtube_trending =
        fetch_youtube_trending env.youtube
    ∧ (update_trending_data_world env now w).cache.twitter_trends =
        fetch_twitter_alternative env.twitter
    ∧ (update_trending_data_world env now w).cache.crypto_news =
        fetch_crypto_news env.news
    ∧ (update_trending_data_world env now w).cache.last_update = some now :=
  fun _ _ _ => ⟨rfl, rfl, rfl, rfl, rfl, rfl, rfl, rfl⟩

/-- Claim C7: the monitor loop never terminates — its n-th iteration is
defined for every n, a raised exception yields the caught branch (state
unchanged, no notifications, a flat 300-second sleep) after which the loop
retries, and a successful iteration sleeps the fixed 1800-second interval
before re-running the aggregator. -/
theorem claim_c7 : ∀ (envs : Nat → LoopEnv) (w : World) (n : Nat)
    (f : FetchEnv) (now : Nat) (e : String),
    background_monitor_run envs w 0 = w
    ∧ background_monitor_run envs w (n + 1) =
        (background_monitor_iter (envs n) (background_monitor_run envs w n)).world
    ∧ background_monitor_iter ⟨f, now, some e⟩ w = ⟨w, [], [300]⟩
    ∧ (background_monitor_iter ⟨f, now, none⟩ w).sleeps = [1800]
    ∧ (background_monitor_iter ⟨f, now, none⟩ w).world =
        ⟨update_trending_data f now w.cache, w.prefs⟩ :=
  fun _ _ _ _ _ _ => ⟨rfl, rfl, rfl, rfl, rfl⟩

/-- Claim C10: `toggle_auto` sends the usage reply and leaves the whole
preference dictionary unchanged unless given exactly one argument that
case-insensitively equals `on` or `off`; a valid call rewrites only the
calling user's entry (creating it if needed, with `auto_notify` set to the
chosen value) and every other user's lookup is unchanged. -/
theorem claim_c10 : ∀ (uid : Nat) (args : List String) (prefs : Prefs) (v : Nat),
    (toggle_auto uid args prefs).2 =
      (if validAutoArgs args then prefsSet uid ⟨some (autoStatus args)⟩ prefs else prefs)
    ∧ (toggle_auto uid args prefs).1 =
      (if validAutoArgs args
         then (if autoStatus args then [enabled_message] else [disabled_message])
         else [usage_message])
    ∧ prefsGet v (toggle_auto uid args prefs).2 =
      (if v = uid
         then (if validAutoArgs args then some ⟨some (autoStatus args)⟩ else prefsGet v prefs)
         else prefsGet v prefs) := by
  intro uid args prefs v
  refine ⟨by rw [toggle_auto_spec], by rw [toggle_auto_spec], ?_⟩
  rw [toggle_auto_spec]
  by_cases hv : validAutoArgs args
  · by_cases he : v = uid
    · subst he
      simp [hv, prefsGet_prefsSet_same]
    · simp [hv, he, prefsGet_prefsSet_ne uid v _ prefs he]
  · simp [hv]

/-- Claim C2: in any monitor iteration, a notification goes to a user only
when that user's stored `auto_notify` preference is `true` and the Google
trend-set difference against the pre-run snapshot is non-empty, and the
notified trends are exactly the first 5 of that difference — in particular
a subset of it of length at most 5 — so a user who has not opted in is
never notified. -/
theorem claim_c2 : ∀ (env : LoopEnv) (w : World) (uid : Nat) (ts : List String),
    (w.prefs.map Prod.fst).Nodup →
    (uid, ts) ∈ (background_monitor_iter env w).notifs →
    env.failure = none
    ∧ (monitorFresh env w).isEmpty = false
    ∧ (∃ p, prefsGet uid w.prefs = some p ∧ p.auto_notify = some true)
    ∧ ts = (monitorFresh env w).take 5
    ∧ ts.length ≤ 5
    ∧ ts ⊆ monitorFresh env w := by
  intro env w uid ts hd hm
  unfold background_monitor_iter at hm
  cases hf : env.failure with
  | some e =>
    rw [hf] at hm
    simp at hm
  | none =>
    rw [hf] at hm
    simp only at hm
    by_cases hfr : (monitorFresh env w).isEmpty
    · rw [show setDiff (update_trending_data env.fetch env.now w.cache).google_trends
            w.cache.google_trends = monitorFresh env w from rfl] at hm
      simp [hfr] at hm
    · rw [show setDiff (update_trending_data env.fetch env.now w.cache).google_trends
            w.cache.google_trends = monitorFresh env w from rfl] at hm
      simp only [hfr, if_false, Bool.false_eq_true] at hm
      rcases List.mem_filterMap.mp hm with ⟨kv, hkv, hcase⟩
      by_cases hb : kv.2.auto_notify.getD false
      · rw [if_pos hb] at hcase
        have h1 : kv.1 = uid := (Prod.mk.injEq _ _ _ _).mp (Option.some.injEq _ _ ▸ hcase) |>.1
        have h2 : (monitorFresh env w).take 5 = ts :=
          (Prod.mk.injEq _ _ _ _).mp (Option.some.injEq _ _ ▸ hcase) |>.2
        have hmem : (uid, kv.2) ∈ w.prefs := by
          rw [← h1]
          exact hkv
        have hsome : kv.2.auto_notify = some true := by
          cases ha : kv.2.auto_notify with
          | none => rw [ha] at hb; simp at hb
          | some b =>
            rw [ha] at hb
            simp at hb
            rw [hb]
        refine ⟨rfl, by simpa using hfr, ⟨kv.2, prefsGet_eq_of_mem_of_nodup hd hmem, hsome⟩,
          h2.symm, ?_, ?_⟩
        · rw [← h2]
          exact List.length_take_le 5 _
        · rw [← h2]
          exact List.take_subset 5 _
      · rw [if_neg hb] at hcase
        exact absurd hcase (by simp)

/-- The concrete iteration environment for the claim C2 witness: the Google
RSS responds with one fresh trend, every other source fails. -/
def c2_env : LoopEnv :=
  ⟨⟨.ok (200, ["feed", "Fresh1"]), fun _ => .error "e", .error "e", .error "e", [], .error "e"⟩,
   5, none⟩

/-- The concrete state for the claim C2 witness: the initial cache and one
opted-in user. -/
def c2_world : World := ⟨initial_cache, [(7, ⟨some true⟩)]⟩

/-- Witness for claim C2: at the concrete environment and state above, user
7 is notified and the theorem's conclusions hold there. -/
theorem claim_c2_witness :
    ((c2_world.prefs.map Prod.fst).Nodup
      ∧ (7, ["Fresh1"]) ∈ (background_monitor_iter c2_env c2_world).notifs)
    ∧ (c2_env.failure = none
       ∧ (monitorFresh c2_env c2_world).isEmpty = false
       ∧ (∃ p, prefsGet 7 c2_world.prefs = some p ∧ p.auto_notify = some true)
       ∧ ["Fresh1"] = (monitorFresh c2_env c2_world).take 5
       ∧ (["Fresh1"] : List String).length ≤ 5
       ∧ ["Fresh1"] ⊆ monitorFresh c2_env c2_world) :=
  ⟨⟨by decide, by decide⟩, claim_c2 c2_env c2_world 7 ["Fresh1"] (by decide) (by decide)⟩

/-- The naming patterns as claim C5 words them (this definition follows the
claim's text, not the source, and exists to compare the two): six patterns
built from the alphanumeric words of the trend, every missing word replaced
by the placeholder `Trend`. -/
def claimed_name_patterns (trend : String) : List String :=
  let words := trendWords trend
  let w0 := (words.head?).getD "Trend"
  let w1 := (words.get? 1).getD "Trend"
  [w0 ++ "Coin", w0 ++ "Token", w0 ++ w1, w0 ++ "Inu", "Baby" ++ w0, w0 ++ "Moon"]

/-- Counterexample for claim C5: for the wordless trend `!!!`, pattern 3 of
`generate_coin_name` returns the raw trend string `!!!` (not a `Trend`
placeholder and not built from alphanumeric words), and pattern 6 returns
`MoonTrend` where the claimed `<w0>Moon` shape with the placeholder would
be `TrendMoon`; neither output is in the claimed pattern set. -/
theorem claim_c5_counterexample :
    generate_coin_name "!!!" 2 = "!!!"
    ∧ "!!!" ∉ claimed_name_patterns "!!!"
    ∧ generate_coin_name "!!!" 5 = "MoonTrend"
    ∧ "MoonTrend" ∉ claimed_name_patterns "!!!" :=
  ⟨rfl, by decide, rfl, by decide⟩

/-- Claim C5 as amended: `generate_coin_concept` copies the trend and the
source, derives its ticker from the generated name via `generate_ticker`,
picks the description from the five fixed templates instantiated with the
trend, and picks the name from the six fixed patterns of the source — which
are `<w0>Coin`, `<w0>Token`, the first two words joined, `<w0>Inu`,
`Baby<w0>`, `<w0>Moon`, except that the third pattern falls back to the
original trend string unchanged when there are fewer than two words and the
wordless fallbacks are `TrendCoin`, `TrendToken`, `TrendInu`, `BabyTrend`
and `MoonTrend`. -/
theorem claim_c5_amended : ∀ (trend source : String) (nc dc : Nat) (nowStr : String),
    (generate_coin_concept trend source nc dc nowStr).name ∈ name_patterns trend
    ∧ (generate_coin_concept trend source nc dc nowStr).description ∈ coin_descriptions trend
    ∧ (generate_coin_concept trend source nc dc nowStr).ticker =
        generate_ticker (generate_coin_concept trend source nc dc nowStr).name
    ∧ (generate_coin_concept trend source nc dc nowStr).trend = trend
    ∧ (generate_coin_concept trend source nc dc nowStr).source = source
    ∧ (generate_coin_concept trend source nc dc nowStr).generated_at = nowStr
    ∧ name_patterns trend =
        [ (match (trendWords trend).head? with | some w => w ++ "Coin" | none => "TrendCoin"),
          (match (trendWords trend).head? with | some w => w ++ "Token" | none => "TrendToken"),
          (if 2 ≤ (trendWords trend).length then String.join ((trendWords trend).take 2)
           else trend),
          (match (trendWords trend).head? with | some w => w ++ "Inu" | none => "TrendInu"),
          (match (trendWords trend).head? with | some w => "Baby" ++ w | none => "BabyTrend"),
          (match (trendWords trend).head? with | some w => w ++ "Moon" | none => "MoonTrend") ]
    ∧ coin_descriptions trend =
        [ "The official memecoin of " ++ trend ++ "! 🚀",
          "Riding the " ++ trend ++ " wave to the moon! 🌙",
          trend ++ " holders unite! Community-driven token.",
          "Inspired by " ++ trend ++ ". Fair launch, no presale!",
          "The " ++ trend ++ " revolution starts here! 💎🙌" ] := by
  intro trend source nc dc nowStr
  refine ⟨?_, ?_, rfl, rfl, rfl, rfl, rfl, rfl⟩
  · exact getD_mem_of_lt _ _ _
      (by rw [show (name_patterns trend).length = 6 from rfl]; exact Nat.mod_lt _ (by norm_num))
  · exact getD_mem_of_lt _ _ _
      (by rw [show (coin_descriptions trend).length = 5 from rfl]; exact Nat.mod_lt _ (by norm_num))

theorem tickerChars_eq (cs : List Char) :
    tickerChars cs =
      (if 3 ≤ ((cs.flatMap pyUpperChar).filter isUpperAscii).length
       then ((cs.flatMap pyUpperChar).filter isUpperAscii).take 4
       else ((cs.take 4).flatMap pyUpperChar).filter (fun c => c ≠ ' ')) := rfl

/-- Counterexample for claim C9: Python `str.upper()` is neither
length-preserving nor confined to ASCII.  `ß` uppercases to `SS`, so
`generate_ticker` on `ß!!!` takes the else branch
(`name[:4].upper().replace(' ', '')`) and returns the 5-character `SS!!!`,
refuting the claimed length bound of 4; and the lowercase kra `ĸ` has no
uppercase form, so `generate_ticker` on `ĸĸĸ!` returns `ĸĸĸ!` unchanged,
retaining lowercase letters in the result. -/
theorem claim_c9_counterexample :
    generate_ticker "ß!!!" = "SS!!!"
    ∧ (generate_ticker "ß!!!").length = 5
    ∧ ¬((generate_ticker "ß!!!").length ≤ 4)
    ∧ generate_ticker "ĸĸĸ!" = "ĸĸĸ!" :=
  ⟨rfl, rfl, by decide, rfl⟩

/-- Claim C9 as amended: restricted to names made of ASCII characters
(where the uppercase model is exact), `generate_ticker` returns at most 4
characters, none of them lowercase letters and none of them spaces; with at
least 3 characters of `[A-Z]` in the uppercased name it returns the first
at most 4 of those, otherwise the first at most 4 characters of the name
uppercased with the spaces removed — empty when the name is empty.  For
non-ASCII names the length bound and the no-lowercase conclusion fail, as
the counterexample shows. -/
theorem claim_c9_amended : ∀ (name : String),
    name.toList.all (fun c => decide (c.toNat < 128)) = true →
    (generate_ticker name).length ≤ 4
    ∧ (∀ ch ∈ (generate_ticker name).toList, isLowerAscii ch = false)
    ∧ (∀ ch ∈ (generate_ticker name).toList, ch ≠ ' ')
    ∧ generate_ticker name =
        (if 3 ≤ ((name.toList.flatMap pyUpperChar).filter isUpperAscii).length
         then String.mk (((name.toList.flatMap pyUpperChar).filter isUpperAscii).take 4)
         else String.mk (((name.toList.take 4).flatMap pyUpperChar).filter (fun c => c ≠ ' ')))
    ∧ generate_ticker "" = "" := by
  intro name hascii
  have hmk : ∀ l : List Char, (String.mk l).length = l.length := fun _ => rfl
  refine ⟨?_, ?_, ?_, ?_, rfl⟩
  · show (String.mk (tickerChars name.toList)).length ≤ 4
    rw [hmk, tickerChars_eq]
    split
    · exact List.length_take_le _ _
    · calc (((name.toList.take 4).flatMap pyUpperChar).filter (fun c => c ≠ ' ')).length
          ≤ ((name.toList.take 4).flatMap pyUpperChar).length := List.length_filter_le _ _
        _ = (name.toList.take 4).length := flatMap_length_of_singleton _ _
            (fun c hc => pyUpperChar_length_of_ascii
              (of_decide_eq_true (List.all_eq_true.mp hascii c (List.take_subset _ _ hc))))
        _ ≤ 4 := List.length_take_le _ _
  · intro ch hch
    rw [show (generate_ticker name).toList = tickerChars name.toList from rfl,
      tickerChars_eq] at hch
    rcases Classical.em
        (3 ≤ ((name.toList.flatMap pyUpperChar).filter isUpperAscii).length) with h | h
    · rw [if_pos h] at hch
      have h2 : ch ∈ (name.toList.flatMap pyUpperChar).filter isUpperAscii :=
        List.take_subset _ _ hch
      exact isUpperAscii_no_lower (List.mem_filter.mp h2).2
    · rw [if_neg h] at hch
      have h2 : ch ∈ (name.toList.take 4).flatMap pyUpperChar := (List.mem_filter.mp hch).1
      rcases List.mem_flatMap.mp h2 with ⟨c0, _, he⟩
      exact isLowerAscii_of_mem_pyUpperChar he
  · intro ch hch
    rw [show (generate_ticker name).toList = tickerChars name.toList from rfl,
      tickerChars_eq] at hch
    rcases Classical.em
        (3 ≤ ((name.toList.flatMap pyUpperChar).filter isUpperAscii).length) with h | h
    · rw [if_pos h] at hch
      have h2 : ch ∈ (name.toList.flatMap pyUpperChar).filter isUpperAscii :=
        List.take_subset _ _ hch
      exact isUpperAscii_ne_space (List.mem_filter.mp h2).2
    · rw [if_neg h] at hch
      have h2 := (List.mem_filter.mp hch).2
      simpa using h2
  · rw [show generate_ticker name = String.mk (tickerChars name.toList) from rfl,
      tickerChars_eq]
    split
    · rfl
    · rfl

/-- Witness for the amended claim C9 at the concrete ASCII name `a bc d`. -/
theorem claim_c9_witness :
    "a bc d".toList.all (fun c => decide (c.toNat < 128)) = true
    ∧ ((generate_ticker "a bc d").length ≤ 4
       ∧ (∀ ch ∈ (generate_ticker "a bc d").toList, isLowerAscii ch = false)
       ∧ (∀ ch ∈ (generate_ticker "a bc d").toList, ch ≠ ' ')
       ∧ generate_ticker "a bc d" =
          (if 3 ≤ (("a bc d".toList.flatMap pyUpperChar).filter isUpperAscii).length
           then String.mk ((("a bc d".toList.flatMap pyUpperChar).filter isUpperAscii).take 4)
           else String.mk ((("a bc d".toList.take 4).flatMap pyUpperChar).filter (fun c => c ≠ ' ')))
       ∧ generate_ticker "" = "") :=
  ⟨by decide, claim_c9_amended "a bc d" (by decide)⟩

theorem isEmpty_false_of_ne_nil {α : Type} {l : List α} (h : l ≠ []) : l.isEmpty = false := by
  cases l with
  | nil => exact absurd rfl h
  | cons x xs => rfl

/-- Claim C8: `fetch_google_trends` never returns an empty list (the
fallback fills in on every failure), so every completed aggregator run
leaves a non-empty `google_trends` entry and a set timestamp, and
`show_trends`, run from any reachable state, renders without ever calling
`strftime` on `None` (its reply is always `ok`). -/
theorem claim_c8 : ∀ (w : World) (env : FetchEnv) (genv : HttpOutcome (List String)) (now : Nat),
    Reachable w →
    (fetch_google_trends genv).isEmpty = false
    ∧ ((update_trending_data env now w.cache).google_trends).isEmpty = false
    ∧ (update_trending_data env now w.cache).last_update = some now
    ∧ ∃ msgs, (show_trends env now w.cache).1 = .ok msgs := by
  intro w env genv now hr
  refine ⟨isEmpty_false_of_ne_nil (fetch_google_trends_ne_nil genv),
    isEmpty_false_of_ne_nil (by rw [update_google]; exact fetch_google_trends_ne_nil _),
    rfl, ?_⟩
  by_cases h1 : w.cache.google_trends.isEmpty
  · have h2 : (update_trending_data env now w.cache).google_trends.isEmpty = false :=
      isEmpty_false_of_ne_nil (by rw [update_google]; exact fetch_google_trends_ne_nil _)
    have h_eq : (show_trends env now w.cache).1 =
        .ok (["⏳ Fetching trends for the first time..."]
             ++ [render_trends (update_trending_data env now w.cache).google_trends now]) := by
      simp [show_trends, h1, h2, update_last_update]
    exact ⟨_, h_eq⟩
  · have h3 : w.cache.last_update ≠ none := by
      apply reachable_cacheOk hr
      intro he
      rw [he] at h1
      exact h1 rfl
    cases hlu : w.cache.last_update with
    | none => exact absurd hlu h3
    | some lu =>
      have h_eq : (show_trends env now w.cache).1 =
          .ok ([] ++ [render_trends w.cache.google_trends lu]) := by
        simp [show_trends, h1, hlu]
      exact ⟨_, h_eq⟩

/-- Witness for claim C8: the initial state is reachable and the theorem
applies to it. -/
theorem claim_c8_witness :
    Reachable initial_world
    ∧ ((fetch_google_trends (.error "boom")).isEmpty = false
       ∧ ((update_trending_data c2_env.fetch 5 initial_world.cache).google_trends).isEmpty = false
       ∧ (update_trending_data c2_env.fetch 5 initial_world.cache).last_update = some 5
       ∧ ∃ msgs, (show_trends c2_env.fetch 5 initial_world.cache).1 = .ok msgs) :=
  ⟨Reachable.init, claim_c8 initial_world c2_env.fetch (.error "boom") 5 Reachable.init⟩

/-- Whether key `k` of the dictionary holds a list value. -/
def keyHoldsList (d : CacheDict) (k : String) : Bool :=
  match dictGet k d with
  | some v => v.isListVal
  | none => false

theorem dictSet_keys_cache (k : String) (v : CVal) (d : CacheDict) (hk : k ∈ cache_keys)
    (h : d.map Prod.fst = cache_keys) : (dictSet k v d).map Prod.fst = cache_keys := by
  rw [dictSet_keys_of_mem _ _ _ (by rw [h]; exact hk), h]

theorem update_dict_keys (env : FetchEnv) (now : Nat) (d : CacheDict)
    (h : d.map Prod.fst = cache_keys) :
    (update_trending_data_dict env now d).map Prod.fst = cache_keys := by
  unfold update_trending_data_dict
  apply dictSet_keys_cache _ _ _ (by decide)
  apply dictSet_keys_cache _ _ _ (by decide)
  apply dictSet_keys_cache _ _ _ (by decide)
  apply dictSet_keys_cache _ _ _ (by decide)
  apply dictSet_keys_cache _ _ _ (by decide)
  apply dictSet_keys_cache _ _ _ (by decide)
  apply dictSet_keys_cache _ _ _ (by decide)
  exact h

theorem reachable_dict_keys {d : CacheDict} (h : ReachableDict d) :
    d.map Prod.fst = cache_keys := by
  induction h with
  | init => decide
  | update env now _ ih => exact update_dict_keys env now _ ih

theorem update_dict_google (env : FetchEnv) (now : Nat) (d : CacheDict) :
    dictGet "google_trends" (update_trending_data_dict env now d) =
      some (.strs (fetch_google_trends env.google)) := by
  unfold update_trending_data_dict
  rw [dictGet_dictSet_ne _ _ _ _ (by decide), dictGet_dictSet_ne _ _ _ _ (by decide),
    dictGet_dictSet_ne _ _ _ _ (by decide), dictGet_dictSet_ne _ _ _ _ (by decide),
    dictGet_dictSet_ne _ _ _ _ (by decide), dictGet_dictSet_ne _ _ _ _ (by decide),
    dictGet_dictSet_same]

theorem update_dict_reddit (env : FetchEnv) (now : Nat) (d : CacheDict) :
    dictGet "reddit_trending" (update_trending_data_dict env now d) =
      some (.posts (fetch_reddit_trending env.reddit)) := by
  unfold update_trending_data_dict
  rw [dictGet_dictSet_ne _ _ _ _ (by decide), dictGet_dictSet_ne _ _ _ _ (by decide),
    dictGet_dictSet_ne _ _ _ _ (by decide), dictGet_dictSet_ne _ _ _ _ (by decide),
    dictGet_dictSet_ne _ _ _ _ (by decide), dictGet_dictSet_same]

theorem update_dict_coingecko (env : FetchEnv) (now : Nat) (d : CacheDict) :
    dictGet "coingecko_trending" (update_trending_data_dict env now d) =
      some (.coins (fetch_coingecko_trending env.coingecko)) := by
  unfold update_trending_data_dict
  rw [dictGet_dictSet_ne _ _ _ _ (by decide), dictGet_dictSet_ne _ _ _ _ (by decide),
    dictGet_dictSet_ne _ _ _ _ (by decide), dictGet_dictSet_ne _ _ _ _ (by decide),
    dictGet_dictSet_same]

theorem update_dict_youtube (env : FetchEnv) (now : Nat) (d : CacheDict) :
    dictGet "youtube_trending" (update_trending_data_dict env now d) =
      some (.strs (fetch_youtube_trending env.youtube)) := by
  unfold update_trending_data_dict
  rw [dictGet_dictSet_ne _ _ _ _ (by decide), dictGet_dictSet_ne _ _ _ _ (by decide),
    dictGet_dictSet_ne _ _ _ _ (by decide), dictGet_dictSet_same]

theorem update_dict_twitter (env : FetchEnv) (now : Nat) (d : CacheDict) :
    dictGet "twitter_trends" (update_trending_data_dict env now d) =
      some (.strs (fetch_twitter_alternative env.twitter)) := by
  unfold update_trending_data_dict
  rw [dictGet_dictSet_ne _ _ _ _ (by decide), dictGet_dictSet_ne _ _ _ _ (by decide),
    dictGet_dictSet_same]

theorem update_dict_news (env : FetchEnv) (now : Nat) (d : CacheDict) :
    dictGet "crypto_news" (update_trending_data_dict env now d) =
      some (.strs (fetch_crypto_news env.news)) := by
  unfold update_trending_data_dict
  rw [dictGet_dictSet_ne _ _ _ _ (by decide), dictGet_dictSet_same]

theorem update_dict_time (env : FetchEnv) (now : Nat) (d : CacheDict) :
    dictGet "last_update" (update_trending_data_dict env now d) = some (.time (some now)) := by
  unfold update_trending_data_dict
  rw [dictGet_dictSet_same]

theorem reachable_dict_lists {d : CacheDict} (h : ReachableDict d) :
    source_keys.all (keyHoldsList d) = true := by
  induction h with
  | init => decide
  | update env now _ _ =>
    simp [source_keys, keyHoldsList, update_dict_google, update_dict_reddit,
      update_dict_coingecko, update_dict_youtube, update_dict_twitter, update_dict_news,
      CVal.isListVal]

/-- Claim C6: in every reachable cache dictionary the key set is exactly the
six source keys plus `last_update` (no operation adds, removes or evicts a
key), each source key holds a list value — the empty list initially, and
after an aggregator run exactly what that run fetched, with `last_update`
set to that run's time. -/
theorem claim_c6 : ∀ (d : CacheDict) (env : FetchEnv) (now : Nat),
    ReachableDict d →
    d.map Prod.fst = cache_keys
    ∧ source_keys.all (keyHoldsList d) = true
    ∧ dictGet "google_trends" initial_cache_dict = some (.strs [])
    ∧ dictGet "reddit_trending" initial_cache_dict = some (.posts [])
    ∧ dictGet "coingecko_trending" initial_cache_dict = some (.coins [])
    ∧ dictGet "youtube_trending" initial_cache_dict = some (.strs [])
    ∧ dictGet "twitter_trends" initial_cache_dict = some (.strs [])
    ∧ dictGet "crypto_news" initial_cache_dict = some (.strs [])
    ∧ dictGet "last_update" initial_cache_dict = some (.time none)
    ∧ dictGet "google_trends" (update_trending_data_dict env now d) =
        some (.strs (fetch_google_trends env.google))
    ∧ dictGet "reddit_trending" (update_trending_data_dict env now d) =
        some (.posts (fetch_reddit_trending env.reddit))
    ∧ dictGet "coingecko_trending" (update_trending_data_dict env now d) =
        some (.coins (fetch_coingecko_trending env.coingecko))
    ∧ dictGet "youtube_trending" (update_trending_data_dict env now d) =
        some (.strs (fetch_youtube_trending env.youtube))
    ∧ dictGet "twitter_trends" (update_trending_data_dict env now d) =
        some (.strs (fetch_twitter_alternative env.twitter))
    ∧ dictGet "crypto_news" (update_trending_data_dict env now d) =
        some (.strs (fetch_crypto_news env.news))
    ∧ dictGet "last_update" (update_trending_data_dict env now d) = some (.time (some now)) :=
  fun d env now h =>
    ⟨reachable_dict_keys h, reachable_dict_lists h, rfl, rfl, rfl, rfl, rfl, rfl, rfl,
     update_dict_google env now d, update_dict_reddit env now d,
     update_dict_coingecko env now d, update_dict_youtube env now d,
     update_dict_twitter env now d, update_dict_news env now d, update_dict_time env now d⟩

/-- Witness for claim C6: the initial dictionary is reachable and the
theorem applies to it with a concrete fetch environment. -/
theorem claim_c6_witness :
    ReachableDict initial_cache_dict
    ∧ (initial_cache_dict.map Prod.fst = cache_keys
       ∧ source_keys.all (keyHoldsList initial_cache_dict) = true
       ∧ dictGet "google_trends" initial_cache_dict = some (.strs [])
       ∧ dictGet "reddit_trending" initial_cache_dict = some (.posts [])
       ∧ dictGet "coingecko_trending" initial_cache_dict = some (.coins [])
       ∧ dictGet "youtube_trending" initial_cache_dict = some (.strs [])
       ∧ dictGet "twitter_trends" initial_cache_dict = some (.strs [])
       ∧ dictGet "crypto_news" initial_cache_dict = some (.strs [])
       ∧ dictGet "last_update" initial_cache_dict = some (.time none)
       ∧ dictGet "google_trends" (update_trending_data_dict c2_env.fetch 5 initial_cache_dict) =
           some (.strs (fetch_google_trends c2_env.fetch.google))
       ∧ dictGet "reddit_trending" (update_trending_data_dict c2_env.fetch 5 initial_cache_dict) =
           some (.posts (fetch_reddit_trending c2_env.fetch.reddit))
       ∧ dictGet "coingecko_trending" (update_trending_data_dict c2_env.fetch 5 initial_cache_dict) =
           some (.coins (fetch_coingecko_trending c2_env.fetch.coingecko))
       ∧ dictGet "youtube_trending" (update_trending_data_dict c2_env.fetch 5 initial_cache_dict) =
           some (.strs (fetch_youtube_trending c2_env.fetch.youtube))
       ∧ dictGet "twitter_trends" (update_trending_data_dict c2_env.fetch 5 initial_cache_dict) =
           some (.strs (fetch_twitter_alternative c2_env.fetch.twitter))
       ∧ dictGet "crypto_news" (update_trending_data_dict c2_env.fetch 5 initial_cache_dict) =
           some (.strs (fetch_crypto_news c2_env.fetch.news))
       ∧ dictGet "last_update" (update_trending_data_dict c2_env.fetch 5 initial_cache_dict) =
           some (.time (some 5))) :=
  ⟨ReachableDict.init, claim_c6 initial_cache_dict c2_env.fetch 5 ReachableDict.init⟩

theorem allSixEmptyB_update (env : FetchEnv) (now : Nat) (c : TrendingCache) :
    allSixEmptyB (update_trending_data env now c) = false := by
  unfold allSixEmptyB
  rw [update_google, isEmpty_false_of_ne_nil (fetch_google_trends_ne_nil env.google)]
  rfl

theorem allSixEmptyB_after (env : FetchEnv) (now : Nat) (c : TrendingCache) :
    allSixEmptyB (if allSixEmptyB c then update_trending_data env now c else c) = false := by
  by_cases h : allSixEmptyB c
  · rw [if_pos h]
    exact allSixEmptyB_update env now c
  · rw [if_neg h]
    exact Bool.not_eq_true _ ▸ (by simpa using h)

theorem ideaSeeds_eq_nil_iff (c : TrendingCache) :
    ideaSeeds c = [] ↔
      c.twitter_trends = [] ∧ c.youtube_trending = [] ∧ c.google_trends = []
      ∧ c.reddit_trending = [] := by
  unfold ideaSeeds
  simp [List.append_eq_nil, List.map_eq_nil_iff, List.take_eq_nil_iff]

theorem ideaConcepts_eq_nil_iff (rngN rngD : Nat → Nat) (nowStr : String) (c : TrendingCache) :
    ideaConcepts rngN rngD nowStr c = [] ↔ ideaSeeds c = [] := by
  unfold ideaConcepts
  constructor
  · intro h
    have h2 : (ideaSeeds c).enum = [] := List.map_eq_nil_iff.mp h
    have h3 := congrArg List.length h2
    rw [List.enum_length] at h3
    exact List.length_eq_zero.mp h3
  · intro h
    rw [h]
    rfl

theorem ideaConcepts_after_ne (env : FetchEnv) (now : Nat) (nowStr : String)
    (rngN rngD : Nat → Nat) (c : TrendingCache) :
    (ideaConcepts rngN rngD nowStr
      (if genFourEmptyB c then update_trending_data env now c else c)).isEmpty = false := by
  apply isEmpty_false_of_ne_nil
  intro hnil
  rw [ideaConcepts_eq_nil_iff, ideaSeeds_eq_nil_iff] at hnil
  by_cases h : genFourEmptyB c
  · rw [if_pos h] at hnil
    have hg : (update_trending_data env now c).google_trends = [] := hnil.2.2.1
    rw [update_google] at hg
    exact fetch_google_trends_ne_nil env.google hg
  · rw [if_neg h] at hnil
    apply h
    unfold genFourEmptyB
    rw [hnil.1, hnil.2.1, hnil.2.2.1, hnil.2.2.2]
    rfl

theorem show_trends_replies (env : FetchEnv) (now : Nat) (c : TrendingCache) :
    (show_trends env now c).1 =
      (if (if c.google_trends.isEmpty then update_trending_data env now c else c).google_trends.isEmpty
       then .ok ((if c.google_trends.isEmpty then ["⏳ Fetching trends for the first time..."] else [])
                 ++ [no_trends_msg])
       else match (if c.google_trends.isEmpty then update_trending_data env now c else c).last_update with
         | none => .error "AttributeError: NoneType has no attribute strftime"
         | some lu =>
             .ok ((if c.google_trends.isEmpty then ["⏳ Fetching trends for the first time..."] else [])
                  ++ [render_trends (if c.google_trends.isEmpty then update_trending_data env now c else c).google_trends lu])) := by
  unfold show_trends
  by_cases h1 : c.google_trends.isEmpty
  · by_cases h2 : (update_trending_data env now c).google_trends.isEmpty
    · simp [h1, h2]
    · cases hlu : (update_trending_data env now c).last_update <;> simp [h1, h2, hlu]
  · cases hlu : c.last_update <;> simp [h1, hlu]

theorem show_reddit_replies (env : FetchEnv) (now : Nat) (c : TrendingCache) :
    (show_reddit env now c).1 =
      (if c.reddit_trending.isEmpty then ["⏳ Fetching Reddit trends..."] else [])
      ++ (if (if c.reddit_trending.isEmpty then update_trending_data env now c else c).reddit_trending.isEmpty
          then [no_reddit_msg]
          else [render_reddit (if c.reddit_trending.isEmpty then update_trending_data env now c else c).reddit_trending]) := by
  unfold show_reddit
  by_cases h1 : c.reddit_trending.isEmpty <;>
    by_cases h2 : (update_trending_data env now c).reddit_trending.isEmpty <;>
      simp [h1, h2]

theorem show_coins_replies (env : FetchEnv) (now : Nat) (c : TrendingCache) :
    (show_coins env now c).1 =
      (if c.coingecko_trending.isEmpty then ["⏳ Fetching trending coins..."] else [])
      ++ (if (if c.coingecko_trending.isEmpty then update_trending_data env now c else c).coingecko_trending.isEmpty
          then [no_coins_msg]
          else [render_coins (if c.coingecko_trending.isEmpty then update_trending_data env now c else c).coingecko_trending]) := by
  unfold show_coins
  by_cases h1 : c.coingecko_trending.isEmpty <;>
    by_cases h2 : (update_trending_data env now c).coingecko_trending.isEmpty <;>
      simp [h1, h2]

theorem show_twitter_replies (env : FetchEnv) (now : Nat) (c : TrendingCache) :
    (show_twitter env now c).1 =
      (if c.twitter_trends.isEmpty then ["⏳ Fetching Twitter trends..."] else [])
      ++ (if (if c.twitter_trends.isEmpty then update_trending_data env now c else c).twitter_trends.isEmpty
          then [no_twitter_msg]
          else [render_twitter (if c.twitter_trends.isEmpty then update_trending_data env now c else c).twitter_trends]) := by
  unfold show_twitter
  by_cases h1 : c.twitter_trends.isEmpty <;>
    by_cases h2 : (update_trending_data env now c).twitter_trends.isEmpty <;>
      simp [h1, h2]

theorem show_youtube_replies (env : FetchEnv) (now : Nat) (c : TrendingCache) :
    (show_youtube env now c).1 =
      (if c.youtube_trending.isEmpty then ["⏳ Fetching YouTube trends..."] else [])
      ++ (if (if c.youtube_trending.isEmpty then update_trending_data env now c else c).youtube_trending.isEmpty
          then [no_youtube_msg]
          else [render_youtube (if c.youtube_trending.isEmpty then update_trending_data env now c else c).youtube_trending]) := by
  unfold show_youtube
  by_cases h1 : c.youtube_trending.isEmpty <;>
    by_cases h2 : (update_trending_data env now c).youtube_trending.isEmpty <;>
      simp [h1, h2]

theorem show_news_replies (env : FetchEnv) (now : Nat) (c : TrendingCache) :
    (show_news env now c).1 =
      (if c.crypto_news.isEmpty then ["⏳ Fetching crypto news..."] else [])
      ++ (if (if c.crypto_news.isEmpty then update_trending_data env now c else c).crypto_news.isEmpty
          then [no_news_msg]
          else [render_news (if c.crypto_news.isEmpty then update_trending_data env now c else c).crypto_news]) := by
  unfold show_news
  by_cases h1 : c.crypto_news.isEmpty <;>
    by_cases h2 : (update_trending_data env now c).crypto_news.isEmpty <;>
      simp [h1, h2]

theorem show_all_trends_replies (env : FetchEnv) (now : Nat) (c : TrendingCache) :
    (show_all_trends env now c).1 =
      (if allSixEmptyB c then ["⏳ Fetching ALL trends..."] else [])
      ++ [render_all_trends (if allSixEmptyB c then update_trending_data env now c else c)] := by
  unfold show_all_trends
  by_cases h : allSixEmptyB c <;> simp [h]

theorem generate_ideas_replies (env : FetchEnv) (now : Nat) (nowStr : String)
    (rngN rngD : Nat → Nat) (c : TrendingCache) :
    (generate_ideas env now nowStr rngN rngD c).1 =
      (if genFourEmptyB c then ["⏳ Fetching trends first..."] else [])
      ++ ["🎨 Generating coin ideas from ALL sources..."]
      ++ (if (ideaConcepts rngN rngD nowStr
              (if genFourEmptyB c then update_trending_data env now c else c)).isEmpty
          then [no_ideas_msg]
          else [render_concepts (ideaConcepts rngN rngD nowStr
                  (if genFourEmptyB c then update_trending_data env now c else c))]) := by
  unfold generate_ideas
  by_cases h1 : genFourEmptyB c
  · by_cases h2 : (ideaConcepts rngN rngD nowStr (update_trending_data env now c)).isEmpty <;>
      simp [h1, h2]
  · by_cases h2 : (ideaConcepts rngN rngD nowStr c).isEmpty <;>
      simp [h1, h2]

/-- Claim C4: every cache-reading handler fetches on first access — when the
cache data it reads is empty it runs `update_trending_data` before
rendering (first equation of each pair: the cache it renders from and hands
back), and when that data is still empty afterwards it replies with its
unavailability message in place of a rendered list (second equation of each
pair).  For `show_all_trends` and `generate_ideas` the final two equations
show the data they render can never still be empty after the refetch (the
Google fallback fills the cache), so their summary and concept replies are
always produced. -/
theorem claim_c4 : ∀ (env : FetchEnv) (now : Nat) (nowStr : String)
    (rngN rngD : Nat → Nat) (c : TrendingCache),
    (show_trends env now c).2 =
      (if c.google_trends.isEmpty then update_trending_data env now c else c)
    ∧ (show_trends env now c).1 =
      (if (if c.google_trends.isEmpty then update_trending_data env now c else c).google_trends.isEmpty
       then .ok ((if c.google_trends.isEmpty then ["⏳ Fetching trends for the first time..."] else [])
                 ++ [no_trends_msg])
       else match (if c.google_trends.isEmpty then update_trending_data env now c else c).last_update with
         | none => .error "AttributeError: NoneType has no attribute strftime"
         | some lu =>
             .ok ((if c.google_trends.isEmpty then ["⏳ Fetching trends for the first time..."] else [])
                  ++ [render_trends (if c.google_trends.isEmpty then update_trending_data env now c else c).google_trends lu]))
    ∧ (show_reddit env now c).2 =
      (if c.reddit_trending.isEmpty then update_trending_data env now c else c)
    ∧ (show_reddit env now c).1 =
      (if c.reddit_trending.isEmpty then ["⏳ Fetching Reddit trends..."] else [])
      ++ (if (if c.reddit_trending.isEmpty then update_trending_data env now c else c).reddit_trending.isEmpty
          then [no_reddit_msg]
          else [render_reddit (if c.reddit_trending.isEmpty then update_trending_data env now c else c).reddit_trending])
    ∧ (show_coins env now c).2 =
      (if c.coingecko_trending.isEmpty then update_trending_data env now c else c)
    ∧ (show_coins env now c).1 =
      (if c.coingecko_trending.isEmpty then ["⏳ Fetching trending coins..."] else [])
      ++ (if (if c.coingecko_trending.isEmpty then update_trending_data env now c else c).coingecko_trending.isEmpty
          then [no_coins_msg]
          else [render_coins (if c.coingecko_trending.isEmpty then update_trending_data env now c else c).coingecko_trending])
    ∧ (show_twitter env now c).2 =
      (if c.twitter_trends.isEmpty then update_trending_data env now c else c)
    ∧ (show_twitter env now c).1 =
      (if c.twitter_trends.isEmpty then ["⏳ Fetching Twitter trends..."] else [])
      ++ (if (if c.twitter_trends.isEmpty then update_trending_data env now c else c).twitter_trends.isEmpty
          then [no_twitter_msg]
          else [render_twitter (if c.twitter_trends.isEmpty then update_trending_data env now c else c).twitter_trends])
    ∧ (show_youtube env now c).2 =
      (if c.youtube_trending.isEmpty then update_trending_data env now c else c)
    ∧ (show_youtube env now c).1 =
      (if c.youtube_trending.isEmpty then ["⏳ Fetching YouTube trends..."] else [])
      ++ (if (if c.youtube_trending.isEmpty then update_trending_data env now c else c).youtube_trending.isEmpty
          then [no_youtube_msg]
          else [render_youtube (if c.youtube_trending.isEmpty then update_trending_data env now c else c).youtube_trending])
    ∧ (show_news env now c).2 =
      (if c.crypto_news.isEmpty then update_trending_data env now c else c)
    ∧ (show_news env now c).1 =
      (if c.crypto_news.isEmpty then ["⏳ Fetching crypto news..."] else [])
      ++ (if (if c.crypto_news.isEmpty then update_trending_data env now c else c).crypto_news.isEmpty
          then [no_news_msg]
          else [render_news (if c.crypto_news.isEmpty then update_trending_data env now c else c).crypto_news])
    ∧ (show_all_trends env now c).2 =
      (if allSixEmptyB c then update_trending_data env now c else c)
    ∧ (show_all_trends env now c).1 =
      (if allSixEmptyB c then ["⏳ Fetching ALL trends..."] else [])
      ++ [render_all_trends (if allSixEmptyB c then update_trending_data env now c else c)]
    ∧ (generate_ideas env now nowStr rngN rngD c).2 =
      (if genFourEmptyB c then update_trending_data env now c else c)
    ∧ (generate_ideas env now nowStr rngN rngD c).1 =
      (if genFourEmptyB c then ["⏳ Fetching trends first..."] else [])
      ++ ["🎨 Generating coin ideas from ALL sources..."]
      ++ (if (ideaConcepts rngN rngD nowStr
              (if genFourEmptyB c then update_trending_data env now c else c)).isEmpty
          then [no_ideas_msg]
          else [render_concepts (ideaConcepts rngN rngD nowStr
                  (if genFourEmptyB c then update_trending_data env now c else c))])
    ∧ allSixEmptyB (if allSixEmptyB c then update_trending_data env now c else c) = false
    ∧ (ideaConcepts rngN rngD nowStr
        (if genFourEmptyB c then update_trending_data env now c else c)).isEmpty = false :=
  fun env now nowStr rngN rngD c =>
    ⟨show_trends_cache env now c, show_trends_replies env now c,
     show_reddit_cache env now c, show_reddit_replies env now c,
     show_coins_cache env now c, show_coins_replies env now c,
     show_twitter_cache env now c, show_twitter_replies env now c,
     show_youtube_cache env now c, show_youtube_replies env now c,
     show_news_cache env now c, show_news_replies env now c,
     show_all_trends_cache env now c, show_all_trends_replies env now c,
     generate_ideas_cache env now nowStr rngN rngD c,
     generate_ideas_replies env now nowStr rngN rngD c,
     allSixEmptyB_after env now c,
     ideaConcepts_after_ne env now nowStr rngN rngD c⟩
